import Mathlib

/-
Verification of the yaffaa-pwapt compile pipeline against its design
specification.  The Python sources are shallowly embedded: JSON values
become an inductive type, dict operations become association-list
operations, code that can raise becomes Except-valued, and the
effectful compile endpoint becomes a pure function over an environment
that fixes the results of every external call (oracle, renderers,
validators, storage digests, clock, random seed).  Floating-point
scores are embedded as rationals; every comparison performed by the
code on the score values it actually produces (multiples of 1/10
capped at 1/2, plus 1/2) gives the same verdict over the rationals as
over IEEE doubles, since those values and thresholds are ordered
identically in both representations.
-/

set_option maxHeartbeats 1000000

/-
Batteries marks the core rational-number operations irreducible; the
concrete evaluations in the witnesses below need them to reduce, so
their default transparency is restored locally.
-/
set_option allowUnsafeReducibility true
attribute [local semireducible] Rat.add Rat.mul Rat.div Rat.inv

namespace UPE

/-- JSON-like values as produced by Python's json.loads: None, bools,
numbers, strings, lists and dicts (association lists; keys unique). -/
inductive JVal where
  | null : JVal
  | bool (b : Bool) : JVal
  | num (q : ℚ) : JVal
  | str (s : String) : JVal
  | arr (xs : List JVal) : JVal
  | obj (fields : List (String × JVal)) : JVal
deriving Repr

/-- A Python dict with string keys, as an association list. -/
abbrev Obj := List (String × JVal)

/-- dict.get(k): first binding of the key, if any. -/
def dGet (d : Obj) (k : String) : Option JVal :=
  (d.find? (fun p => p.1 == k)).map (fun p => p.2)

/-- dict.get(k, default). -/
def dGetD (d : Obj) (k : String) (dflt : JVal) : JVal :=
  (dGet d k).getD dflt

/-- Python `k in dict`. -/
def dHas (d : Obj) (k : String) : Bool :=
  (dGet d k).isSome

/-- In-place update dict[k] = v (the key is known to be present). -/
def dSet (d : Obj) (k : String) (v : JVal) : Obj :=
  d.map (fun p => if p.1 == k then (p.1, v) else p)

mutual

/-- Python repr() of a JSON value.  Numeric rendering is abstracted
(the claims never inspect rendered numbers); containers follow the
list/dict display form. -/
def pyRepr : JVal → String
  | .null => "None"
  | .bool true => "True"
  | .bool false => "False"
  | .num q => if q.den = 1 then toString q.num else toString q
  | .str s => "\x27" ++ s ++ "\x27"
  | .arr xs => "[" ++ String.intercalate ", " (pyReprList xs) ++ "]"
  | .obj kvs => "\x7b" ++ String.intercalate ", " (pyReprFields kvs) ++ "\x7d"

def pyReprList : List JVal → List String
  | [] => []
  | x :: xs => pyRepr x :: pyReprList xs

def pyReprFields : List (String × JVal) → List String
  | [] => []
  | (k, v) :: xs => ("\x27" ++ k ++ "\x27: " ++ pyRepr v) :: pyReprFields xs

end

/-- Python str() of a JSON value: identity on strings, repr-like elsewhere. -/
def pyStr : JVal → String
  | .str s => s
  | v => pyRepr v

/-- Sequential effectful iteration over a list, stopping at the first
error: the shape of every result-collecting Python for-loop in the
sources (candidate generation, section repair, pydantic list
validation). -/
def mapExcept {e a b : Type} (f : a → Except e b) : List a → Except e (List b)
  | [] => .ok []
  | x :: xs => do
    let y ← f x
    let ys ← mapExcept f xs
    .ok (y :: ys)

/-! ## schema_transformer.py -/

/-- transform_block from schema_transformer.py: first-match mapping of the
oracle's type/content block shape onto the canonical kind/typed shape;
non-dict blocks pass through unchanged. -/
def transform_block (block : JVal) : JVal :=
  match block with
  | .obj d =>
    match dGetD d "type" (.str "") with
    | .str "text" =>
      .obj [("kind", .str "para"),
            ("text", dGetD d "content" (dGetD d "text" (.str "")))]
    | .str "list" =>
      .obj [("kind", .str "list"),
            ("items", dGetD d "items" (dGetD d "content" (.arr [])))]
    | .str "table" =>
      .obj [("kind", .str "table"),
            ("rows", dGetD d "rows" (dGetD d "content" (.arr [])))]
    | .str "chart" =>
      .obj [("kind", .str "chart"),
            ("spec", dGetD d "spec" (dGetD d "content" (.obj [])))]
    | _ =>
      .obj [("kind", .str "para"),
            ("text", .str (pyStr (dGetD d "content" (dGetD d "text" (.str "")))))]
  | b => b

/-- transform_section from schema_transformer.py: rebuilds a section dict
with id/heading defaulted to the empty string and blocks transformed;
non-dict sections pass through unchanged. -/
def transform_section (sec : JVal) : JVal :=
  match sec with
  | .obj d =>
    let blocks := dGetD d "blocks" (.arr [])
    let transformed :=
      match blocks with
      | .arr xs => xs.map transform_block
      | _ => ([] : List JVal)
    .obj [("id", dGetD d "id" (.str "")),
          ("heading", dGetD d "heading" (.str "")),
          ("blocks", .arr transformed)]
  | s => s

/-- transform_ai_output_to_schema from schema_transformer.py. -/
def transform_ai_output_to_schema (ai_output : Obj) : Obj :=
  let sections :=
    match dGetD ai_output "sections" (.arr []) with
    | .arr xs => xs.map transform_section
    | _ => ([] : List JVal)
  let base := [("title", dGetD ai_output "title" (.str "Untitled Document")),
               ("sections", JVal.arr sections)]
  match dGet ai_output "citations" with
  | some c => base ++ [("citations", c)]
  | none => base

/-- The per-section repair loop body of validate_and_fix_schema: fills
missing id/heading/blocks keys; the id placeholder uses the total section
count n (CPython: f-string over len(data["sections"])).  A non-dict
section raises in CPython on key-membership or item assignment, embedded
as an error (string/list corner cases that would not raise are not
reachable from any claim). -/
def fixSection (n : Nat) (sec : JVal) : Except String JVal :=
  match sec with
  | .obj d =>
    let d := if dHas d "id" then d else d ++ [("id", JVal.str ("section_" ++ toString n))]
    let d := if dHas d "heading" then d else d ++ [("heading", JVal.str "Section")]
    let d := if dHas d "blocks" then d else d ++ [("blocks", JVal.arr [])]
    .ok (.obj d)
  | _ => .error "TypeError: section is not a dict"

/-- validate_and_fix_schema from schema_transformer.py: fills missing
title/sections on the document, then repairs each section in order. -/
def validate_and_fix_schema (data : Obj) : Except String Obj := do
  let data := if dHas data "title" then data else data ++ [("title", JVal.str "Generated Document")]
  let data := if dHas data "sections" then data else data ++ [("sections", JVal.arr [])]
  match dGet data "sections" with
  | some (.arr xs) =>
    let fixed ← mapExcept (fixSection xs.length) xs
    .ok (dSet data "sections" (.arr fixed))
  | some _ => .error "TypeError: sections is not a list of dicts"
  | none => .error "unreachable: sections key was just ensured"

/-! ## doc_ast.py (pydantic document model) -/

/-- Claim from doc_ast.py. -/
structure ClaimObj where
  id : String
  text : String
  sourceId : Option String
  confidence : Option ℚ
deriving Repr, DecidableEq

/-- Block from doc_ast.py: the union Para | ListBlock | Table | Chart. -/
inductive Block where
  | para (text : String) (claims : Option (List ClaimObj)) : Block
  | listBlock (items : List String) : Block
  | table (rows : List (List String)) : Block
  | chart (spec : JVal) : Block
deriving Repr

/-- Section from doc_ast.py. -/
structure Section where
  id : String
  heading : String
  blocks : List Block
deriving Repr

/-- Doc from doc_ast.py. -/
structure Doc where
  title : String
  sections : List Section
deriving Repr

/-- Pydantic validation of a required str field value. -/
def parseStr (v : JVal) : Except String String :=
  match v with
  | .str s => .ok s
  | _ => .error "Input should be a valid string"

/-- Pydantic validation of List[str]. -/
def parseStrList (v : JVal) : Except String (List String) :=
  match v with
  | .arr xs => mapExcept parseStr xs
  | _ => .error "Input should be a valid list"

/-- Pydantic validation of List[List[str]]. -/
def parseRows (v : JVal) : Except String (List (List String)) :=
  match v with
  | .arr xs => mapExcept parseStrList xs
  | _ => .error "Input should be a valid list"

/-- Pydantic validation of one Claim object. -/
def parseClaimObj (v : JVal) : Except String ClaimObj :=
  match v with
  | .obj d => do
    let i ← parseStr (dGetD d "id" .null)
    let t ← parseStr (dGetD d "text" .null)
    let src ←
      match dGetD d "sourceId" .null with
      | .null => pure (none : Option String)
      | .str s => pure (some s)
      | _ => Except.error "Input should be a valid string"
    let conf ←
      match dGetD d "confidence" .null with
      | .null => pure (none : Option ℚ)
      | .num q => pure (some q)
      | _ => Except.error "Input should be a valid number"
    .ok { id := i, text := t, sourceId := src, confidence := conf }
  | _ => .error "Input should be a valid dictionary"

/-- Pydantic validation of Optional[List[Claim]]. -/
def parseClaims (v : JVal) : Except String (Option (List ClaimObj)) :=
  match v with
  | .null => .ok none
  | .arr xs => (mapExcept parseClaimObj xs).map some
  | _ => .error "Input should be a valid list"

/-- Pydantic validation of one Block dict against the Para | ListBlock |
Table | Chart union, discriminated by the kind literal; when kind is
absent the union members are tried in declaration order, each with its
kind default. -/
def parseBlockFields (d : Obj) (kind : String) : Except String Block :=
  match kind with
  | "para" => do
    let t ← parseStr (dGetD d "text" .null)
    let cl ← parseClaims (dGetD d "claims" .null)
    .ok (.para t cl)
  | "list" => do
    let items ← parseStrList (dGetD d "items" .null)
    .ok (.listBlock items)
  | "table" => do
    let rows ← parseRows (dGetD d "rows" .null)
    .ok (.table rows)
  | "chart" =>
    match dGet d "spec" with
    | some v => .ok (.chart v)
    | none => .error "Field required: spec"
  | _ => .error "Input tag does not match any union member"

/-- Pydantic validation of a Block value. -/
def parseBlock (b : JVal) : Except String Block :=
  match b with
  | .obj d =>
    match dGet d "kind" with
    | some (.str k) => parseBlockFields d k
    | some _ => .error "Input should be a valid string literal"
    | none =>
      match parseBlockFields d "para" with
      | .ok blk => .ok blk
      | .error _ =>
        match parseBlockFields d "list" with
        | .ok blk => .ok blk
        | .error _ =>
          match parseBlockFields d "table" with
          | .ok blk => .ok blk
          | .error _ => parseBlockFields d "chart"
  | _ => .error "Input should be a valid dictionary"

/-- dict[k] item access: KeyError when absent. -/
def pyDictGetItem (d : Obj) (k : String) : Except String JVal :=
  match dGet d k with
  | some v => .ok v
  | none => .error ("KeyError: " ++ k)

/-- One section of the dict comprehension in compile_endpoint step 4
combined with pydantic Section validation: id and heading are accessed
by item lookup (KeyError when absent) and must be strings, blocks
defaults to [] and every entry must validate as a Block. -/
def parseSectionObj (s : JVal) : Except String Section :=
  match s with
  | .obj d => do
    let idv ← pyDictGetItem d "id"
    let hv ← pyDictGetItem d "heading"
    let i ← parseStr idv
    let h ← parseStr hv
    match dGetD d "blocks" (.arr []) with
    | .arr xs => do
      let blocks ← mapExcept parseBlock xs
      .ok { id := i, heading := h, blocks := blocks }
    | _ => .error "Input should be a valid list"
  | _ => .error "TypeError: section is not a dict"

/-- Doc.model_validate applied to the dict built in compile_endpoint
step 4 from the validated JSON. -/
def docFromValidated (v : Obj) : Except String Doc := do
  let title ← pyDictGetItem v "title"
  let secs ← pyDictGetItem v "sections"
  match secs with
  | .arr xs => do
    let sections ← mapExcept parseSectionObj xs
    let t ← parseStr title
    .ok { title := t, sections := sections }
  | _ => .error "TypeError: sections is not a list"

/-- Output normalization as performed by compile_endpoint step 4: schema
transform, then repair. -/
def normalize (ai : Obj) : Except String Obj :=
  validate_and_fix_schema (transform_ai_output_to_schema ai)

/-- Output normalization followed by construction of the canonical Doc,
exactly as compile_endpoint step 4 does inside its try block. -/
def normalizeDoc (ai : Obj) : Except String Doc := do
  let v ← normalize ai
  docFromValidated v

/-- Code-point lexicographic strict comparison of character lists:
CPython's string less-than.  (The library String order is not
kernel-reducible, so the comparison is embedded directly.) -/
def strLt : List Char → List Char → Bool
  | [], [] => false
  | [], _ :: _ => true
  | _ :: _, [] => false
  | a :: as, b :: bs =>
    if a.toNat < b.toNat then true
    else if b.toNat < a.toNat then false
    else strLt as bs

/-- CPython string less-or-equal: the complement of the reverse strict
comparison, as in any total order. -/
def strLe (a b : List Char) : Bool := !(strLt b a)

/-- Stable insertion of x into a sorted list: x goes before the first
element it compares less-or-equal to, hence after every earlier element
with an equal key. -/
def pyInsert {a : Type} (le : a → a → Bool) (x : a) : List a → List a
  | [] => [x]
  | y :: ys => if le x y then x :: y :: ys else y :: pyInsert le x ys

/-- CPython's list.sort and sorted() are stable sorts, and a stable sort
of a total preorder has a unique output; it is realised here by a
structurally recursive stable insertion sort, which the kernel can
evaluate (the library merge sort is defined by well-founded recursion
and cannot). -/
def pySort {a : Type} (le : a → a → Bool) : List a → List a
  | [] => []
  | x :: xs => pyInsert le x (pySort le xs)

/-- Python str.lower() (ASCII case mapping, as every claim input is
ASCII). -/
def pyLowerStr (s : String) : String := String.mk (s.data.map Char.toLower)

/-- Helper of pySplit: accumulates the current word in reverse. -/
def splitWsAux : List Char → List Char → List String
  | [], acc => if acc.isEmpty then [] else [String.mk acc.reverse]
  | c :: cs, acc =>
    if c.isWhitespace then
      if acc.isEmpty then splitWsAux cs []
      else String.mk acc.reverse :: splitWsAux cs []
    else splitWsAux cs (c :: acc)

/-- Python str.split() with no separator: split on whitespace runs,
dropping empty pieces. -/
def pySplit (s : String) : List String := splitWsAux s.data []

/-- Python int() string parsing: optional surrounding whitespace, an
optional sign, one or more ASCII digits (digit-group underscores are
not modelled; no claim uses them). -/
def pyStrToInt (s : String) : Option Int :=
  let cs := s.data.dropWhile (fun c => c.isWhitespace)
  let cs := (cs.reverse.dropWhile (fun c => c.isWhitespace)).reverse
  let parseDigits : List Char → Option Nat := fun ds =>
    if ds.isEmpty then none
    else ds.foldl (fun acc c =>
      match acc with
      | none => none
      | some n => if c.isDigit then some (n * 10 + (c.toNat - 48)) else none) (some 0)
  match cs with
  | Char.mk 45 _ :: rest => (parseDigits rest).map (fun n => -(n : Int))
  | Char.mk 43 _ :: rest => (parseDigits rest).map (fun n => (n : Int))
  | _ => (parseDigits cs).map (fun n => (n : Int))

/-! ## retrieval.py -/

/-- One retrieval corpus entry: id, title, body. -/
structure SrcDoc where
  id : String
  title : String
  body : String
deriving Repr, DecidableEq

/-- One RetrievalSnapshotEntry: id, title and the content digest of the
body (the digest function itself is hashlib, an external collaborator,
so it is a parameter of the embedding). -/
structure SnapEntry where
  id : String
  title : String
  hash : String
deriving Repr, DecidableEq

/-- The sort comparator realised by sorted(docs, key=(title, id)):
lexicographic comparison of the key tuples; CPython string comparison is
code-point lexicographic, as is the String order used here. -/
def srcLe (a b : SrcDoc) : Bool :=
  strLt a.title.data b.title.data ||
    (a.title == b.title && strLe a.id.data b.id.data)

/-- deterministic_snapshot from retrieval.py: stable ascending sort by
(title, id), truncation to topK, digest of each body. -/
def deterministic_snapshot (sha256 : String → String) (docs : List SrcDoc) (topK : Nat) :
    List SnapEntry :=
  let docs_sorted := pySort srcLe docs
  (docs_sorted.take topK).map (fun d => { id := d.id, title := d.title, hash := sha256 d.body })

/-! ## gears.py -/

/-- GearProfile from gears.py; the three keys that only the proof profile
defines are optional, mirroring the TypedDict with total=False. -/
structure GearProfile where
  k : Nat
  temps : List ℚ
  reflect : Nat
  ragTopK : Nat
  web : Bool
  coach : Bool
  proofGate : Bool
  latencyMs : Nat
  minCites : Option Nat
  rubricMin : Option ℚ
  triangulate : Option Bool
deriving Repr, DecidableEq

/-- The static gear registry from gears.py. -/
def gearProfiles : List (String × GearProfile) :=
  [("turbo",
    { k := 1, temps := [3/10], reflect := 0, ragTopK := 6, web := false, coach := false,
      proofGate := false, latencyMs := 6000, minCites := none, rubricMin := none,
      triangulate := none }),
   ("mentor",
    { k := 3, temps := [2/10, 5/10], reflect := 1, ragTopK := 12, web := false, coach := true,
      proofGate := false, latencyMs := 8000, minCites := none, rubricMin := none,
      triangulate := none }),
   ("proof",
    { k := 9, temps := [1/10, 3/10, 7/10], reflect := 3, ragTopK := 32, web := true,
      coach := false, proofGate := true, latencyMs := 30000, minCites := some 5,
      rubricMin := some (8/10), triangulate := some true })]

/-- Dict lookup gearProfiles[mode]. -/
def gearLookup (mode : String) : Option GearProfile :=
  (gearProfiles.find? (fun p => p.1 == mode)).map (fun p => p.2)

/-! ## proof_gate.py and format_gate.py -/

/-- proof_gate from proof_gate.py.  Note the score threshold is the
literal 0.80 in the source, not the profile rubricMin (the two coincide
for the registered proof profile). -/
def proof_gate (rubric_score : ℚ) (min_cites : Nat) (cites_count : Nat)
    (triangulated : Bool) : Bool × String :=
  if rubric_score < 8/10 then (false, "score_below_threshold")
  else if cites_count < min_cites then (false, "not_enough_evidence")
  else if !triangulated then (false, "no_dual_path_agreement")
  else (true, "ok")

/-- format_fidelity from format_gate.py. -/
def format_fidelity (primary : String) (produced : List String) : Bool × String :=
  let ok := produced.contains primary
  (ok, if ok then "ok" else "missing_primary_artifact")

/-! ## prompt_bom.py -/

/-- compile_prompt_bom from prompt_bom.py: ten fixed labeled parts joined
by blank lines.  Rendering of the rational temperature is abstracted. -/
def compile_prompt_bom (run_id cartridge_version : String) (seed : Int) (model : String)
    (temp : ℚ) (role goal context style : String) (banlist : List String)
    (tools_json rubric output_schema failure_json : String) : String :=
  String.intercalate "

"
    ["[HEADER] Prompt-ID:" ++ run_id ++ " Version:" ++ cartridge_version ++ " Seed:" ++
       toString seed ++ " Model:" ++ model ++ " t=" ++ toString temp,
     "[ROLE] You are " ++ role ++ ". Do not reveal chain-of-thought. Follow policy; obey schema.",
     "[OBJECTIVE] " ++ goal,
     "[CONTEXT] " ++ context,
     "[STYLE & GLOSSARY] " ++ style ++ " | Avoid: " ++ String.intercalate ", " banlist,
     "[TOOLS] " ++ tools_json,
     "[ACCEPTANCE RUBRIC]\n" ++ rubric,
     "[OUTPUT SCHEMA]\n" ++ output_schema,
     "[FAILURE JSON]\n" ++ failure_json,
     "[RETURN INSTRUCTIONS] Return only JSON conforming to schema. No prose. </END>"]

/-! ## followups.py -/

/-- One follow-up suggestion: the fields of the dicts built by
followups_for (the action dict is summarised by its route string; the
nested request bodies are opaque to every claim). -/
structure Followup where
  id : String
  label : String
  rationale : String
  route : String
  impact : List String
deriving Repr, DecidableEq

/-- followups_for from followups.py: three fixed suggestions, the third
one routed at the given manifest id.  The goal and mode arguments are
accepted and ignored, as in the source. -/
def followups_for (goal mode manifest_id : String) : List Followup :=
  let _ := goal
  let _ := mode
  [{ id := "verify_claims", label := "Verify claims",
     rationale := "Increase evidence thresholds and re-run judge.",
     route := "/upe/compile", impact := ["accuracy", "safety", "quality"] },
   { id := "transform_pdf", label := "Also export as PDF",
     rationale := "Share a read-only version.",
     route := "/upe/compile", impact := ["format"] },
   { id := "tighten_scope", label := "Tighten scope",
     rationale := "Reduce length, enforce must-include list.",
     route := "/upe/runs/" ++ manifest_id ++ "/feedback", impact := ["quality", "latency"] }]

/-! ## Committee and judge (routes.py steps 3) -/

/-- Outcome of one Chat Completions call as seen by _llm_json: the call
either raises (transport or API failure), or returns message content
that json.loads parses to a JSON value, or returns content that fails
to parse.  Absent content is read as the empty object by the
`content or "\x7b\x7d"` fallback, i.e. the json case with an empty obj. -/
inductive OracleResult where
  | failure (msg : String) : OracleResult
  | json (j : JVal) : OracleResult
  | malformed : OracleResult
deriving Repr

/-- A Python exception escaping a routes.py endpoint: either a raised
HTTPException with its status code, or any other uncaught exception. -/
inductive PyErr where
  | httpError (code : Nat) (msg : String) : PyErr
  | exn (msg : String) : PyErr
deriving Repr, DecidableEq

/-- _llm_json from routes.py: a raising call propagates; content that
fails json.loads is replaced by the TOOL_ERROR object. -/
def llm_json : OracleResult → Except PyErr JVal
  | .failure msg => .error (.exn msg)
  | .json j => .ok j
  | .malformed =>
    .ok (.obj [("status", .str "TOOL_ERROR"), ("message", .str "malformed JSON from model")])

/-- Python len() of a JSON value: defined on strings and containers,
TypeError elsewhere. -/
def pyLen : JVal → Except PyErr Nat
  | .str s => .ok s.length
  | .arr xs => .ok xs.length
  | .obj kvs => .ok kvs.length
  | _ => .error (.exn "TypeError: object has no length")

/-- value.get(k, default) on a candidate JSON value: AttributeError when
the parsed value is not a dict. -/
def jGet (j : JVal) (k : String) (dflt : JVal) : Except PyErr JVal :=
  match j with
  | .obj d => .ok (dGetD d k dflt)
  | _ => .error (.exn "AttributeError: object has no attribute get")

/-- One committee candidate: 0-based generation index (the code labels
it C(idx+1)), the parsed oracle JSON, and the heuristic score. -/
structure Candidate where
  idx : Nat
  json : JVal
  score : ℚ
deriving Repr

/-- The candidate id string f"C(i+1)" used in ledger and manifest. -/
def candId (c : Candidate) : String := "C" ++ toString (c.idx + 1)

/-- The score heuristic of compile_endpoint step 3: one half for two or
more sections, and in proof mode up to another half at a tenth per
citation. -/
def candScore (mode : String) (cand_json : JVal) : Except PyErr ℚ := do
  let sections ← jGet cand_json "sections" (.arr [])
  let cites ← jGet cand_json "citations" (.arr [])
  let base : ℚ :=
    match sections with
    | .arr xs => if 2 ≤ xs.length then 1/2 else 0
    | _ => 0
  if mode == "proof" then do
    let n ← pyLen cites
    return base + min (1/2) ((n : ℚ) / 10)
  else
    return base

/-- One iteration of the candidate loop of compile_endpoint step 3: the
oracle call for index i followed by the score heuristic. -/
def mkCand (oracle : Nat → OracleResult) (mode : String) (i : Nat) :
    Except PyErr Candidate := do
  let j ← llm_json (oracle i)
  let s ← candScore mode j
  .ok { idx := i, json := j, score := s }

/-- The candidate generation loop of compile_endpoint step 3: one oracle
call per index, in order; an exception in any call aborts the loop. -/
def runCommittee (oracle : Nat → OracleResult) (mode : String) (k : Nat) :
    Except PyErr (List Candidate) :=
  mapExcept (mkCand oracle mode) (List.range k)

/-- The comparator realised by candidates.sort(key=score, reverse=True):
a stable descending sort keeps a before b whenever the score of b does
not exceed the score of a; CPython sort with reverse=True is a stable
descending sort. -/
def candLe (a b : Candidate) : Bool := decide (b.score ≤ a.score)

/-- The in-place candidates.sort of compile_endpoint step 3. -/
def judgeSort (cands : List Candidate) : List Candidate := pySort candLe cands

/-- winner = candidates[0] after the sort. -/
def judgeWinner (cands : List Candidate) : Option Candidate := (judgeSort cands).head?

/-! ## sabi.py (edit-operation engine) -/

/-- Python int() applied to a JSON value: truncating conversion for
numbers, digit-string parsing for strings (ValueError on non-numeric
strings such as "abc"), bools converting to 0 and 1, TypeError for
None and containers. -/
def pyInt : JVal → Except PyErr Int
  | .num q => .ok (q.num.tdiv q.den)
  | .str s =>
    match pyStrToInt s with
    | some n => .ok n
    | none => .error (.exn ("ValueError: invalid literal for int: " ++ s))
  | .bool b => .ok (if b then 1 else 0)
  | _ => .error (.exn "TypeError: int() argument")

/-- Python str.lower() on a JSON value: AttributeError off strings. -/
def pyLower : JVal → Except PyErr String
  | .str s => .ok (pyLowerStr s)
  | _ => .error (.exn "AttributeError: object has no attribute lower")

/-- Python list slicing l[:m] with a possibly negative bound. -/
def pySliceTo {a : Type} (l : List a) (m : Int) : List a :=
  if 0 ≤ m then l.take m.toNat
  else l.take (l.length - min l.length m.natAbs)

/-- One iteration of the op loop in apply_edit_ops (sabi.py): the four
known tags transform the document, every other tag (or a missing or
non-string tag) is skipped; exceptions from int() or .lower() abort. -/
def applyOp (ndoc : Doc) (op : Obj) : Except PyErr Doc :=
  match dGet op "op" with
  | some (.str "remove") => do
    let target ← pyLower (dGetD op "target" (.str ""))
    .ok { ndoc with sections := ndoc.sections.filter (fun s => !(pyLowerStr s.heading == target)) }
  | some (.str "focus") =>
    let topic := dGetD op "topic" (.str "")
    match ndoc.sections with
    | [] => .ok ndoc
    | s0 :: rest =>
      .ok { ndoc with sections :=
        { s0 with blocks := s0.blocks ++ [Block.listBlock ["Focus on: " ++ pyStr topic]] } :: rest }
  | some (.str "rewrite") =>
    let toVal := dGetD op "to" (.str "")
    match dGet op "target" with
    | some (.str "tone") => .ok { ndoc with title := ndoc.title ++ " [" ++ pyStr toVal ++ "]" }
    | _ => .ok ndoc
  | some (.str "limit") => do
    let sectionName ← pyLower (dGetD op "section" (.str ""))
    let max_words ← pyInt (dGetD op "max_words" (.num 200))
    .ok { ndoc with sections := ndoc.sections.map (fun s =>
      if pyLowerStr s.heading == sectionName then
        { s with blocks := s.blocks.map (fun b =>
          match b with
          | .para text claims =>
            let words := pySplit text
            if max_words < (words.length : Int) then
              .para (String.intercalate " " (pySliceTo words max_words)) claims
            else .para text claims
          | b => b) }
      else s) }
  | _ => .ok ndoc

/-- apply_edit_ops from sabi.py: ops applied strictly in order over a
deep copy of the document; an exception raised by any op aborts the
whole batch with no document returned. -/
def apply_edit_ops (doc : Doc) (ops : List Obj) : Except PyErr Doc :=
  ops.foldlM applyOp doc

/-! ## routes.py compile endpoint -/

/-- ArtifactRequest from pabi.py (layoutHints carries no behaviour). -/
structure ArtifactRequest where
  primary : String
  secondaries : Option (List String)
deriving Repr, DecidableEq

/-- PabiInput from pabi.py, restricted to the fields compile_endpoint
reads (v, yafaOn, slots and quality never influence the pipeline). -/
structure PabiInput where
  goal : String
  mode : String
  seed : Option Int
  artifact : ArtifactRequest
deriving Repr, DecidableEq

/-- ArtifactMeta from manifest.py. -/
structure ArtifactMeta where
  kind : String
  path : String
  bytes : Nat
  sha256 : String
  primary : Bool
deriving Repr, DecidableEq

/-- The proof dict attached to a PabiOutput by compile_endpoint. -/
structure ProofInfo where
  rubricScore : ℚ
  sources : List SnapEntry
  judgeNote : String
deriving Repr, DecidableEq

/-- PabiOutput from pabi.py; the bundle dict is flattened into its
engineeredPrompt, runInstructions and followups entries. -/
structure PabiOutput where
  v : String
  engineeredPrompt : String
  runInstructions : String
  followups : List Followup
  manifestId : String
  seed : Int
  model : String
  cartridge : String
  proof : Option ProofInfo
  status : String
deriving Repr, DecidableEq

/-- RunManifest from manifest.py as populated by compile_endpoint step 8
(parentId and error are never set there; engine and judge dicts are
flattened into their fields). -/
structure RunManifest where
  id : String
  createdAt : String
  request : PabiInput
  engineModel : String
  engineSeed : Int
  engineGear : String
  snapshot : List SnapEntry
  committee : List (String × ℚ)
  judgeWinnerId : String
  judgeScore : ℚ
  docAst : Doc
  artifacts : List ArtifactMeta
  totalMs : ℚ
  status : String
deriving Repr

/-- Ledger from ledger.py as populated by compile_endpoint step 7 (the
diffs dict is summarised by its source-id list). -/
structure Ledger where
  candidates : List (String × ℚ)
  winnerId : String
  rationale : List String
  sourceIds : List String
deriving Repr, DecidableEq

/-- The environment of one compile call: the results of every external
effect the endpoint performs, fixed up front so the endpoint becomes a
pure function of (environment, request). -/
structure Env where
  runId : String
  randSeed : Int
  model : String
  base : String
  loadDocs : List SrcDoc
  oracle : Nat → OracleResult
  sha256 : String → String
  artifactFile : String → Nat × String
  validator : String → Bool × String
  createdAt : String
  totalMs : ℚ

/-- Terminal outcome of a compile call: an escaped exception (including
raised HTTPExceptions) or a returned PabiOutput. -/
inductive COutcome where
  | error (e : PyErr) : COutcome
  | response (out : PabiOutput) : COutcome
deriving Repr, DecidableEq

/-- Result of a compile call together with the trace of its external
writes: the artifact kinds passed to renderers, in invocation order,
and the manifest records handed to write_json, in write order. -/
structure CompileRes where
  outcome : COutcome
  rendered : List String
  manifests : List RunManifest
deriving Repr

/-- The rubric literal of compile_endpoint step 2. -/
def rubricText : String :=
  "- Correctness (40%)\n- Completeness (20%)\n- Evidence (20%)\n- Style (10%)\n- Safety (10%)"

/-- Stands for the indent=2 json.dumps rendering of the output-schema
dict of compile_endpoint step 2: an opaque string constant of the
embedding, inspected by no claim. -/
def outputSchemaText : String :=
  "JSON schema: object with title, sections (id, heading, blocks) and citations"

/-- The failure-JSON literal of compile_endpoint step 2. -/
def failureJsonText : String :=
  "\x7b\"status\":\"INSUFFICIENT_CONTEXT\",\"missing\":[\"field\"]\x7d"

/-- One render-validate-record step of compile_endpoint step 5: the
renderer for the kind is invoked (recorded in the trace), then the
validator verdict decides between HTTP 422 and an ArtifactMeta built by
add_art, whose primary flag is set iff the kind equals the requested
primary kind. -/
def renderKind (env : Env) (runDir primaryKind kind : String) :
    List String × Except PyErr ArtifactMeta :=
  let path := runDir ++ "/artifact." ++ kind
  let vr := env.validator kind
  if vr.1 then
    let fileData := env.artifactFile kind
    ([kind], .ok { kind := kind, path := path, bytes := fileData.1, sha256 := fileData.2,
                   primary := kind == primaryKind })
  else
    ([kind], .error (.httpError 422 (kind ++ " validator: " ++ vr.2)))

/-- The primary-artifact dispatch of compile_endpoint step 5: the five
supported kinds render and validate; anything else is HTTP 400. -/
def renderPrimary (env : Env) (runDir primary : String) :
    List String × Except PyErr ArtifactMeta :=
  if primary == "pptx" || primary == "docx" || primary == "xlsx" ||
     primary == "pdf" || primary == "html" then
    renderKind env runDir primary primary
  else
    ([], .error (.httpError 400 ("Unsupported primary artifact: " ++ primary)))

/-- The secondaries loop of compile_endpoint step 5: only pdf, docx and
xlsx entries render (every other kind is skipped silently); a validator
failure aborts with HTTP 422. -/
def renderSecondaries (env : Env) (runDir primaryKind : String) :
    List String → List String × List ArtifactMeta × Except PyErr Unit
  | [] => ([], [], .ok ())
  | s :: rest =>
    if s == "pdf" || s == "docx" || s == "xlsx" then
      match renderKind env runDir primaryKind s with
      | (ev, .ok art) =>
        let r := renderSecondaries env runDir primaryKind rest
        (ev ++ r.1, art :: r.2.1, r.2.2)
      | (ev, .error e) => (ev, [], .error e)
    else renderSecondaries env runDir primaryKind rest

/-- compile_endpoint from routes.py as a pure function of environment
and request, with its trace of renderer invocations and manifest
writes.  The control flow follows the source: gear check, seed choice
(Python `or` falls back to the random draw on a missing or zero seed),
retrieval snapshot, prompt BOM, committee loop, in-place stable
descending sort, winner citation count, triangulation, normalization
into the Doc AST (failures map to HTTP 422), artifact rendering,
format gate, evidence gate (short-circuiting with the
INSUFFICIENT_CONTEXT response before ledger and manifest), and finally
ledger, manifest persistence with status "completed", follow-ups and
the OK response. -/
def compile (env : Env) (body : PabiInput) : CompileRes :=
  match gearLookup body.mode with
  | none =>
    { outcome := .error (.httpError 400 ("Unknown mode " ++ body.mode)),
      rendered := [], manifests := [] }
  | some gear =>
    let seed : Int :=
      match body.seed with
      | some s => if s == 0 then env.randSeed else s
      | none => env.randSeed
    let run_id := env.runId
    let snapshot := deterministic_snapshot env.sha256 env.loadDocs gear.ragTopK
    let context := "Sources:\n" ++
      String.intercalate "\n" (snapshot.map (fun s => s.id ++ " " ++ s.hash))
    let bom := compile_prompt_bom run_id "cartridge@1.0.0" seed env.model (gear.temps.headD 0)
      "Domain Expert" body.goal context "Executive, terse, data-first" ["emojis", "hyperbole"]
      "[]" rubricText outputSchemaText failureJsonText
    match runCommittee env.oracle body.mode gear.k with
    | .error e => { outcome := .error e, rendered := [], manifests := [] }
    | .ok candidates0 =>
      match judgeSort candidates0 with
      | [] =>
        { outcome := .error (.exn "IndexError: list index out of range"),
          rendered := [], manifests := [] }
      | winner :: sortedRest =>
        let candidates := winner :: sortedRest
        let rubric_score := winner.score
        let citesRes : Except PyErr Nat := do
          let cites ← jGet winner.json "citations" (.arr [])
          pyLen cites
        match citesRes with
        | .error e => { outcome := .error e, rendered := [], manifests := [] }
        | .ok cites_count =>
          let triRes : Except PyErr Bool :=
            if gear.triangulate.getD false then
              match sortedRest with
              | second :: _ => do
                let secs ← jGet second.json "sections" (.arr [])
                let n ← pyLen secs
                pure (2 ≤ n)
              | [] => pure false
            else pure true
          match triRes with
          | .error e => { outcome := .error e, rendered := [], manifests := [] }
          | .ok triangulated =>
            let docRes : Except String Doc :=
              match winner.json with
              | .obj d => normalizeDoc d
              | _ => .error "AttributeError: object has no attribute get"
            match docRes with
            | .error msg =>
              { outcome := .error (.httpError 422
                  ("Model output failed schema validation after transformation: " ++ msg)),
                rendered := [], manifests := [] }
            | .ok doc =>
              let run_dir := env.base ++ "/" ++ run_id
              let primary := body.artifact.primary
              let seconds := body.artifact.secondaries.getD []
              match renderPrimary env run_dir primary with
              | (ev, .error e) => { outcome := .error e, rendered := ev, manifests := [] }
              | (ev, .ok part) =>
                let sr := renderSecondaries env run_dir primary seconds
                let renderedAll := ev ++ sr.1
                match sr.2.2 with
                | .error e => { outcome := .error e, rendered := renderedAll, manifests := [] }
                | .ok _ =>
                  let artifacts := part :: sr.2.1
                  let produced := artifacts.map (fun a => a.kind)
                  let ff := format_fidelity primary produced
                  if !ff.1 then
                    { outcome := .error (.httpError 422 ("format fidelity: " ++ ff.2)),
                      rendered := renderedAll, manifests := [] }
                  else
                    let pg := proof_gate rubric_score (gear.minCites.getD 3) cites_count triangulated
                    if gear.proofGate && !pg.1 then
                      { outcome := .response
                          { v := "1.0.0", engineeredPrompt := bom,
                            runInstructions := "Model " ++ env.model ++ " seed " ++ toString seed,
                            followups := [],
                            manifestId := run_id, seed := seed, model := env.model,
                            cartridge := "cartridge@1.0.0",
                            proof := some { rubricScore := rubric_score, sources := snapshot,
                                            judgeNote := pg.2 },
                            status := "INSUFFICIENT_CONTEXT" },
                        rendered := renderedAll, manifests := [] }
                    else
                      let _ledger : Ledger :=
                        { candidates := candidates.map (fun c => (candId c, c.score)),
                          winnerId := candId winner,
                          rationale := ["Evidence density", "Section completeness",
                                        "Style adherence"],
                          sourceIds := snapshot.map (fun s => s.id) }
                      let manifest : RunManifest :=
                        { id := run_id, createdAt := env.createdAt, request := body,
                          engineModel := env.model, engineSeed := seed, engineGear := body.mode,
                          snapshot := snapshot,
                          committee := candidates.map (fun c => (candId c, c.score)),
                          judgeWinnerId := candId winner, judgeScore := rubric_score,
                          docAst := doc, artifacts := artifacts, totalMs := env.totalMs,
                          status := "completed" }
                      { outcome := .response
                          { v := "1.0.0", engineeredPrompt := bom,
                            runInstructions := "Model " ++ env.model ++ "; t=" ++
                              toString (gear.temps.headD 0) ++ "; seed=" ++ toString seed,
                            followups := followups_for body.goal body.mode run_id,
                            manifestId := run_id, seed := seed, model := env.model,
                            cartridge := "cartridge@1.0.0",
                            proof := some { rubricScore := rubric_score, sources := snapshot,
                                            judgeNote := "winner by evidence" },
                            status := "OK" },
                        rendered := renderedAll, manifests := [manifest] }

/-! ## Concrete fixtures used by the claim theorems -/

/-- A benign environment: every validator passes, every artifact file
reads back with a fixed size and digest, the retrieval corpus is empty
and every oracle call parses to the empty JSON object. -/
def envAllOk : Env :=
  { runId := "run-1", randSeed := 42, model := "gpt-4o-mini", base := "/app/data/upe",
    loadDocs := [], oracle := fun _ => .json (.obj []), sha256 := fun s => s,
    artifactFile := fun _ => (10, "digest"), validator := fun _ => (true, "ok"),
    createdAt := "2026-01-01T00:00:00Z", totalMs := 5 }

/-- A proof-mode request for a primary html artifact. -/
def bodyProofHtml : PabiInput :=
  { goal := "g", mode := "proof", seed := some 7,
    artifact := { primary := "html", secondaries := none } }

/-- A turbo-mode request for a primary html artifact. -/
def bodyTurboHtml : PabiInput :=
  { goal := "g", mode := "turbo", seed := some 7,
    artifact := { primary := "html", secondaries := none } }

/-- A turbo-mode request whose primary kind pdf is repeated in the
secondaries list. -/
def bodyTurboPdfPdf : PabiInput :=
  { goal := "g", mode := "turbo", seed := some 7,
    artifact := { primary := "pdf", secondaries := some ["pdf"] } }

/-- An oracle whose first call raises a transport error; later calls
return the empty object. -/
def oracleDown : Nat → OracleResult :=
  fun i => if i == 0 then .failure "APIConnectionError" else .json (.obj [])

/-- An oracle whose second call returns unparseable content; the other
calls return a well-formed two-section object. -/
def oracleMalformedAt1 : Nat → OracleResult :=
  fun i => if i == 1 then .malformed
           else .json (.obj [("sections", .arr [.obj [], .obj []])])

/-- A one-section document with a five-word paragraph. -/
def docIntro : Doc :=
  { title := "T",
    sections := [{ id := "s1", heading := "Intro",
                   blocks := [.para "one two three four five" none] }] }

/-- A limit op whose max_words value is the non-numeric string "abc". -/
def opsLimitBad : List Obj :=
  [[("op", .str "limit"), ("section", .str "Intro"), ("max_words", .str "abc")]]

/-- An op with an unknown tag. -/
def opUnknown : Obj := [("op", .str "frobnicate")]

/-- An oracle-output dict with two sections that both lack an id field. -/
def twoAnonSections : Obj := [("sections", .arr [.obj [], .obj []])]

/-- Committee candidates scored [0.5, 0.9, 0.9] in generation order. -/
def candsTie : List Candidate :=
  [{ idx := 0, json := .null, score := 1/2 },
   { idx := 1, json := .null, score := 9/10 },
   { idx := 2, json := .null, score := 9/10 }]

/-- A three-document corpus with a title tie between the two A-titled
entries. -/
def docsEx : List SrcDoc :=
  [{ id := "i2", title := "B", body := "b2" },
   { id := "i1", title := "A", body := "b1" },
   { id := "i0", title := "A", body := "b0" }]

/-- The id a normalized section ends up with: the id field of the input
section when it is a string, the empty-string placeholder otherwise
(transform_section's default). -/
def secIdOf (s : Obj) : String :=
  match dGetD s "id" (.str "") with
  | .str i => i
  | _ => ""

/-! ## Claim theorems -/

/-- C10: an ops list containing a limit op whose max_words value is the
non-integer string "abc" makes apply_edit_ops raise (the ValueError from
int()) and return no document — both when the bad op is alone and when
an earlier op of the batch has already applied, so no partially edited
document is produced — while an unknown op tag is silently skipped and
leaves the document unchanged. -/
theorem apply_edit_ops_limit_abc_aborts :
    apply_edit_ops docIntro opsLimitBad =
      .error (.exn "ValueError: invalid literal for int: abc") ∧
    apply_edit_ops docIntro ([("op", .str "focus"), ("topic", .str "x")] :: opsLimitBad) =
      .error (.exn "ValueError: invalid literal for int: abc") ∧
    apply_edit_ops docIntro [opUnknown] = .ok docIntro :=
  ⟨by rfl, by rfl, by rfl⟩

/-- C4 counterexample: normalization of the empty object yields the
title "Untitled Document" (the transform-stage default), not the
"Generated Document" the claim states. -/
theorem normalize_empty_title_cex :
    Except.map Doc.title (normalizeDoc ([] : Obj)) = .ok "Untitled Document" ∧
    Except.map Doc.title (normalizeDoc ([] : Obj)) ≠ .ok "Generated Document" := by
  refine ⟨rfl, fun h => ?_⟩
  rw [show Except.map Doc.title (normalizeDoc ([] : Obj)) = .ok "Untitled Document" from rfl] at h
  exact absurd (Except.ok.inj h) (by decide)

/-- C9 counterexample: normalizing a document whose two sections both
lack an id gives both sections the same empty-string placeholder id, so
the section ids are not pairwise distinct. -/
theorem normalize_dup_ids_cex :
    Except.map (fun d : Doc => d.sections.map Section.id) (normalizeDoc twoAnonSections) =
      .ok ["", ""] ∧
    ¬ (["", ""] : List String).Nodup :=
  ⟨rfl, by decide⟩

/-- C4 amended: normalization of the empty object returns the Document
with title "Untitled Document" and no sections, and more generally never
fails when the title and sections fields are structurally absent (the
transform stage fills both defaults first, so the repair stage's
"Generated Document" fallback is unreachable). -/
theorem normalize_absent_fields_total (d : Obj) (ht : dGet d "title" = none)
    (hs : dGet d "sections" = none) :
    normalizeDoc d = .ok { title := "Untitled Document", sections := [] } := by
  cases hc : dGet d "citations" with
  | none =>
    simp only [normalizeDoc, normalize, transform_ai_output_to_schema, dGetD, ht, hs, hc]
    rfl
  | some c =>
    simp only [normalizeDoc, normalize, transform_ai_output_to_schema, dGetD, ht, hs, hc]
    rfl

/-- Witness for the C4 amended theorem at a concrete object carrying
neither title nor sections. -/
theorem normalize_absent_fields_total_witness :
    normalizeDoc [("foo", JVal.num 1)] =
      .ok { title := "Untitled Document", sections := [] } :=
  normalize_absent_fields_total [("foo", JVal.num 1)] rfl rfl

/-- Inversion of a successful Except bind: both stages succeeded. -/
theorem bind_ok_inv {e a b : Type} {m : Except e a} {k : a → Except e b} {r : b}
    (h : (do
      let x ← m
      k x) = .ok r) :
    ∃ x, m = .ok x ∧ k x = .ok r := by
  cases m with
  | error err => exact Except.noConfusion h
  | ok x => exact ⟨x, rfl, h⟩

/-- transform_section on a dict section always emits exactly the three
keys id, heading, blocks, with defaults for absent fields. -/
theorem transform_section_obj (s : Obj) :
    transform_section (.obj s) =
      .obj [("id", dGetD s "id" (.str "")),
            ("heading", dGetD s "heading" (.str "")),
            ("blocks", .arr (match dGetD s "blocks" (.arr []) with
              | .arr bs => bs.map transform_block
              | _ => ([] : List JVal)))] := rfl

/-- The repair step leaves a transformed dict section unchanged, since
the transform stage already materialised id, heading and blocks. -/
theorem fixSection_transformed (n : Nat) (s : Obj) :
    fixSection n (transform_section (.obj s)) = .ok (transform_section (.obj s)) := rfl

/-- The repair loop is the identity on a list of transformed dict
sections. -/
theorem mapExcept_fix_transformed (n : Nat) (xs : List Obj) :
    mapExcept (fixSection n) ((xs.map JVal.obj).map transform_section) =
      .ok ((xs.map JVal.obj).map transform_section) := by
  induction xs with
  | nil => rfl
  | cons a l ih =>
    show (do
      let y ← fixSection n (transform_section (.obj a))
      let ys ← mapExcept (fixSection n) ((l.map JVal.obj).map transform_section)
      Except.ok (y :: ys) : Except String (List JVal)) = _
    rw [fixSection_transformed, ih]
    rfl

/-- validate_and_fix_schema on a transformed document shape: title and
sections are present, so only the per-section repair loop runs and the
sections value is replaced by the repaired list. -/
theorem validate_transformed (tv : JVal) (ts fixed : List JVal) (tail : Obj)
    (hfix : mapExcept (fixSection ts.length) ts = .ok fixed) :
    validate_and_fix_schema (("title", tv) :: ("sections", .arr ts) :: tail) =
      .ok (("title", tv) :: ("sections", .arr fixed) :: dSet tail "sections" (.arr fixed)) := by
  show (do
    let fx ← mapExcept (fixSection ts.length) ts
    Except.ok (dSet (("title", tv) :: ("sections", JVal.arr ts) :: tail) "sections" (.arr fx)) :
      Except String Obj) = _
  rw [hfix]
  rfl

/-- Inversion of pydantic Section validation on a three-field section
dict: success forces the id value to be a string, which becomes the
Section id verbatim. -/
theorem parseSectionObj_fields (v w bv : JVal) (sec : Section)
    (h : parseSectionObj (.obj [("id", v), ("heading", w), ("blocks", bv)]) = .ok sec) :
    ∃ i, v = .str i ∧ sec.id = i := by
  obtain ⟨idv, hidv, h2⟩ := bind_ok_inv h
  obtain ⟨hdv, hhdv, h3⟩ := bind_ok_inv h2
  obtain ⟨i, hi, h4⟩ := bind_ok_inv h3
  obtain ⟨hh, hw, h5⟩ := bind_ok_inv h4
  have hidv2 : (Except.ok v : Except String JVal) = .ok idv := hidv
  have hveq : v = idv := Except.ok.inj hidv2
  rw [← hveq] at hi
  have hvstr : v = .str i := by
    cases v
    case str t => rw [show t = i from Except.ok.inj hi]
    all_goals exact Except.noConfusion hi
  cases bv with
  | arr xs =>
    obtain ⟨bl, hb, h6⟩ := bind_ok_inv h5
    exact ⟨i, hvstr, by rw [← Except.ok.inj h6]⟩
  | null => exact Except.noConfusion h5
  | bool b => exact Except.noConfusion h5
  | num q => exact Except.noConfusion h5
  | str t => exact Except.noConfusion h5
  | obj fs => exact Except.noConfusion h5

/-- A successfully parsed transformed dict section carries the id value
of the input section, with the empty string standing in when the input
section had none. -/
theorem parseSectionObj_id (s : Obj) (sec : Section)
    (h : parseSectionObj (transform_section (.obj s)) = .ok sec) :
    sec.id = secIdOf s := by
  rw [transform_section_obj] at h
  obtain ⟨i, hv, hid⟩ := parseSectionObj_fields _ _ _ sec h
  rw [hid]
  simp [secIdOf, hv]

/-- The parsed sections of a transformed dict-section list carry exactly
the input ids, with the empty-string placeholder for absent ones. -/
theorem mapExcept_parse_ids (xs : List Obj) :
    ∀ secs : List Section,
      mapExcept parseSectionObj ((xs.map JVal.obj).map transform_section) = .ok secs →
      secs.map Section.id = xs.map secIdOf := by
  induction xs with
  | nil =>
    intro secs h
    rw [← Except.ok.inj h]
    rfl
  | cons a l ih =>
    intro secs h
    obtain ⟨y, hy, h2⟩ := bind_ok_inv h
    obtain ⟨ys, hys, h3⟩ := bind_ok_inv h2
    rw [← Except.ok.inj h3]
    simp only [List.map_cons]
    rw [parseSectionObj_id a y hy, ih ys hys]

/-- C9 amended: when the oracle output's sections are all dicts, the
normalized Document's section ids are exactly the input id values, a
section without an id receiving the empty-string placeholder; the ids
are therefore pairwise distinct whenever those input values are — but
two or more id-less sections all collide on "". -/
theorem normalize_ids (d : Obj) (xs : List Obj)
    (hs : dGet d "sections" = some (.arr (xs.map JVal.obj)))
    (doc : Doc) (hdoc : normalizeDoc d = .ok doc) :
    doc.sections.map Section.id = xs.map secIdOf ∧
    ((xs.map secIdOf).Nodup → (doc.sections.map Section.id).Nodup) := by
  have htr : transform_ai_output_to_schema d =
      ("title", dGetD d "title" (.str "Untitled Document")) ::
      ("sections", .arr ((xs.map JVal.obj).map transform_section)) ::
      (match dGet d "citations" with
        | some c => [("citations", c)]
        | none => []) := by
    cases hc : dGet d "citations" <;>
      simp only [transform_ai_output_to_schema, dGetD, hs, hc] <;> rfl
  have hval : normalize d =
      .ok (("title", dGetD d "title" (.str "Untitled Document")) ::
        ("sections", .arr ((xs.map JVal.obj).map transform_section)) ::
        dSet (match dGet d "citations" with
          | some c => [("citations", c)]
          | none => []) "sections"
          (.arr ((xs.map JVal.obj).map transform_section))) := by
    unfold normalize
    rw [htr]
    exact validate_transformed _ _ _ _ (mapExcept_fix_transformed _ xs)
  have hdoc2 : docFromValidated
      (("title", dGetD d "title" (.str "Untitled Document")) ::
        ("sections", .arr ((xs.map JVal.obj).map transform_section)) ::
        dSet (match dGet d "citations" with
          | some c => [("citations", c)]
          | none => []) "sections"
          (.arr ((xs.map JVal.obj).map transform_section))) = .ok doc := by
    have h0 : normalizeDoc d = (do
        let v ← normalize d
        docFromValidated v) := rfl
    rw [h0, hval] at hdoc
    exact hdoc
  obtain ⟨tv0, htv0, h2⟩ := bind_ok_inv hdoc2
  obtain ⟨sv0, hsv0, h3⟩ := bind_ok_inv h2
  have hsv : (Except.ok (JVal.arr ((xs.map JVal.obj).map transform_section)) :
      Except String JVal) = .ok sv0 := hsv0
  rw [← Except.ok.inj hsv] at h3
  obtain ⟨sections, hsecs, h4⟩ := bind_ok_inv h3
  obtain ⟨t, ht, h5⟩ := bind_ok_inv h4
  have hd := Except.ok.inj h5
  have hids : sections.map Section.id = xs.map secIdOf :=
    mapExcept_parse_ids xs sections hsecs
  rw [← hd]
  exact ⟨hids, fun hnd => hids ▸ hnd⟩

/-- Witness for the C9 amended theorem: two sections with the distinct
ids "a" and "b" keep exactly those ids, which remain distinct. -/
theorem normalize_ids_witness :
    ∃ doc : Doc,
      normalizeDoc [("sections", .arr [.obj [("id", .str "a")], .obj [("id", .str "b")]])] =
        .ok doc ∧
      doc.sections.map Section.id = ["a", "b"] ∧
      (doc.sections.map Section.id).Nodup := by
  refine ⟨{ title := "Untitled Document",
            sections := [{ id := "a", heading := "", blocks := [] },
                         { id := "b", heading := "", blocks := [] }] }, by rfl, ?_, ?_⟩
  · have h := normalize_ids
      [("sections", .arr [.obj [("id", .str "a")], .obj [("id", .str "b")]])]
      [[("id", .str "a")], [("id", .str "b")]] rfl
      { title := "Untitled Document",
        sections := [{ id := "a", heading := "", blocks := [] },
                     { id := "b", heading := "", blocks := [] }] } (by rfl)
    exact h.1
  · have h := normalize_ids
      [("sections", .arr [.obj [("id", .str "a")], .obj [("id", .str "b")]])]
      [[("id", .str "a")], [("id", .str "b")]] rfl
      { title := "Untitled Document",
        sections := [{ id := "a", heading := "", blocks := [] },
                     { id := "b", heading := "", blocks := [] }] } (by rfl)
    exact h.2 (by decide)

/-- C3 counterexample: a single failing oracle call (the first of three)
aborts the whole committee — runCommittee propagates the exception and
produces no candidate list, instead of degrading only that candidate. -/
theorem committee_call_failure_aborts_cex :
    runCommittee oracleDown "mentor" 3 = .error (.exn "APIConnectionError") := by rfl

/-- Sequential iteration succeeds when every element succeeds, and the
results line up index by index. -/
theorem mapExcept_ok_of_forall {e a b : Type} (f : a → Except e b) :
    ∀ l : List a, (∀ x ∈ l, ∃ y, f x = .ok y) →
      ∃ ys, mapExcept f l = .ok ys ∧ ys.length = l.length ∧
        ∀ j (hj : j < l.length) (hj2 : j < ys.length), f l[j] = .ok ys[j] := by
  intro l
  induction l with
  | nil => exact fun _ => ⟨[], rfl, rfl, fun j hj _ => absurd hj (Nat.not_lt_zero j)⟩
  | cons x xs ih =>
    intro hall
    obtain ⟨y, hy⟩ := hall x (List.mem_cons_self x xs)
    obtain ⟨ys, hys, hlen, hidx⟩ := ih (fun z hz => hall z (List.mem_cons_of_mem x hz))
    refine ⟨y :: ys, ?_, by simp [hlen], ?_⟩
    · show (do
        let y0 ← f x
        let ys0 ← mapExcept f xs
        Except.ok (y0 :: ys0) : Except e (List b)) = .ok (y :: ys)
      rw [hy, hys]
      rfl
    · intro j hj hj2
      cases j with
      | zero => simpa using hy
      | succ n =>
        simp only [List.getElem_cons_succ]
        exact hidx n (by simpa using hj) (by simpa using hj2)

/-- The TOOL_ERROR object substituted for malformed oracle content has
no sections and no citations, so its heuristic score is zero in every
mode. -/
theorem candScore_toolErr (mode : String) :
    candScore mode (.obj [("status", JVal.str "TOOL_ERROR"),
      ("message", JVal.str "malformed JSON from model")]) = .ok 0 := by
  cases hm : mode == "proof" <;>
    simp only [candScore, hm, jGet, dGetD, dGet, pyLen] <;> rfl

/-- A malformed oracle call produces the zero-scored TOOL_ERROR
candidate for its index. -/
theorem mkCand_malformed (oracle : Nat → OracleResult) (mode : String) (i : Nat)
    (h : oracle i = .malformed) :
    mkCand oracle mode i =
      .ok { idx := i,
            json := .obj [("status", .str "TOOL_ERROR"),
                          ("message", .str "malformed JSON from model")],
            score := 0 } := by
  show (do
    let j ← llm_json (oracle i)
    let s ← candScore mode j
    Except.ok { idx := i, json := j, score := s } : Except PyErr Candidate) = _
  rw [h]
  show (do
    let s ← candScore mode (.obj [("status", .str "TOOL_ERROR"),
      ("message", .str "malformed JSON from model")])
    Except.ok { idx := i,
                json := .obj [("status", .str "TOOL_ERROR"),
                              ("message", .str "malformed JSON from model")],
                score := s } : Except PyErr Candidate) = _
  rw [candScore_toolErr]
  rfl

/-- C3 amended: when no oracle call raises — i.e. every per-candidate
step succeeds locally, which a malformed-JSON result always does — the
committee completes with exactly k candidates in generation order, and
each candidate whose call returned malformed content is present with
score 0; a raising call, by contrast, aborts the committee (see the
counterexample). -/
theorem committee_malformed_degrades_only (oracle : Nat → OracleResult) (mode : String)
    (k : Nat) (hok : ∀ i, i < k → ∃ c, mkCand oracle mode i = .ok c) :
    ∃ cands, runCommittee oracle mode k = .ok cands ∧ cands.length = k ∧
      (∀ i (hi : i < cands.length), mkCand oracle mode i = .ok cands[i]) ∧
      (∀ i (hi : i < cands.length), oracle i = .malformed →
        cands[i].score = 0 ∧ cands[i].idx = i) := by
  obtain ⟨ys, hys, hlen, hidx⟩ := mapExcept_ok_of_forall (mkCand oracle mode) (List.range k)
    (fun x hx => hok x (List.mem_range.mp hx))
  have hlen2 : ys.length = k := by simpa using hlen
  refine ⟨ys, hys, hlen2, ?_, ?_⟩
  · intro i hi
    have h := hidx i (by simp [List.length_range, hlen2] at hi ⊢; omega) hi
    rwa [List.getElem_range] at h
  · intro i hi hmal
    have h := hidx i (by simp [List.length_range, hlen2] at hi ⊢; omega) hi
    rw [List.getElem_range] at h
    rw [mkCand_malformed oracle mode i hmal] at h
    have := Except.ok.inj h
    rw [← this]
    exact ⟨rfl, rfl⟩

/-- Witness for the C3 amended theorem: three calls of which the second
is malformed complete as a three-candidate committee whose second
candidate scores zero. -/
theorem committee_malformed_degrades_only_witness :
    ∃ cands, runCommittee oracleMalformedAt1 "mentor" 3 = .ok cands ∧ cands.length = 3 ∧
      (∀ i (hi : i < cands.length), mkCand oracleMalformedAt1 "mentor" i = .ok cands[i]) ∧
      (∀ i (hi : i < cands.length), oracleMalformedAt1 i = .malformed →
        cands[i].score = 0 ∧ cands[i].idx = i) :=
  committee_malformed_degrades_only oracleMalformedAt1 "mentor" 3
    (fun i hi => by
      interval_cases i
      · exact ⟨_, rfl⟩
      · exact ⟨_, rfl⟩
      · exact ⟨_, rfl⟩)

/-- Characters with equal code points are equal. -/
theorem char_eq_of_toNat_eq {c d : Char} (h : c.toNat = d.toNat) : c = d :=
  Char.ext (UInt32.ext h)

/-- strLt is irreflexive. -/
theorem strLt_irrefl : ∀ a : List Char, strLt a a = false := by
  intro a
  induction a with
  | nil => rfl
  | cons x xs ih => simp [strLt, ih]

/-- strLt is transitive. -/
theorem strLt_trans : ∀ a b c : List Char,
    strLt a b = true → strLt b c = true → strLt a c = true := by
  intro a
  induction a with
  | nil =>
    intro b c hab hbc
    cases b <;> cases c <;> simp_all [strLt]
  | cons x xs ih =>
    intro b c hab hbc
    cases b with
    | nil => simp [strLt] at hab
    | cons y ys =>
      cases c with
      | nil => simp [strLt] at hbc
      | cons z zs =>
        simp only [strLt] at hab hbc ⊢
        split_ifs at hab hbc ⊢ <;>
          first
          | rfl
          | omega
          | exact ih ys zs hab hbc

/-- Two character lists that are not strictly ordered either way are
equal. -/
theorem strLt_connex : ∀ a b : List Char,
    strLt a b = false → strLt b a = false → a = b := by
  intro a
  induction a with
  | nil =>
    intro b hab _
    cases b with
    | nil => rfl
    | cons y ys => simp [strLt] at hab
  | cons x xs ih =>
    intro b hab hba
    cases b with
    | nil => simp [strLt] at hba
    | cons y ys =>
      simp only [strLt] at hab hba
      split_ifs at hab hba with h1 h2
      all_goals
        first
        | (have hxy : x = y := char_eq_of_toNat_eq (by omega)
           first
           | exact ⟨hxy, ih ys hab hba⟩
           | rw [hxy, ih ys hab hba])

/-- strLe holds exactly when the reverse strict comparison fails. -/
theorem strLe_eq_false_iff (a b : List Char) : strLe a b = true ↔ strLt b a = false := by
  unfold strLe
  cases strLt b a <;> simp

/-- strLe is total. -/
theorem strLe_total (a b : List Char) : (strLe a b || strLe b a) = true := by
  rcases h : strLt b a with _ | _
  · have : strLe a b = true := (strLe_eq_false_iff a b).mpr h
    rw [this, Bool.true_or]
  · have h2 : strLt a b = false := by
      cases h2 : strLt a b with
      | false => rfl
      | true =>
        have := strLt_trans a b a h2 h
        rw [strLt_irrefl] at this
        exact Bool.noConfusion this
    have : strLe b a = true := (strLe_eq_false_iff b a).mpr h2
    rw [this, Bool.or_true]

/-- strLe is transitive. -/
theorem strLe_trans (a b c : List Char)
    (h1 : strLe a b = true) (h2 : strLe b c = true) : strLe a c = true := by
  have hba : strLt b a = false := (strLe_eq_false_iff a b).mp h1
  have hcb : strLt c b = false := (strLe_eq_false_iff b c).mp h2
  refine (strLe_eq_false_iff a c).mpr ?_
  cases hca : strLt c a with
  | false => rfl
  | true =>
    exfalso
    cases hab : strLt a b with
    | true =>
      have := strLt_trans c a b hca hab
      rw [hcb] at this
      exact Bool.noConfusion this
    | false =>
      have heq : a = b := strLt_connex a b hab hba
      rw [heq] at hca
      rw [hcb] at hca
      exact Bool.noConfusion hca

/-- Strings with equal character data are equal. -/
theorem str_eq_of_data_eq {a b : String} (h : a.data = b.data) : a = b :=
  congrArg String.mk h

/-- The snapshot comparator is transitive. -/
theorem srcLe_trans (a b c : SrcDoc) (h1 : srcLe a b = true) (h2 : srcLe b c = true) :
    srcLe a c = true := by
  unfold srcLe at h1 h2 ⊢
  simp only [Bool.or_eq_true, Bool.and_eq_true, beq_iff_eq] at h1 h2 ⊢
  rcases h1 with h1 | ⟨ht1, hi1⟩ <;> rcases h2 with h2 | ⟨ht2, hi2⟩
  · exact Or.inl (strLt_trans _ _ _ h1 h2)
  · exact Or.inl (by rw [← ht2]; exact h1)
  · exact Or.inl (by rw [ht1]; exact h2)
  · exact Or.inr ⟨ht1.trans ht2, strLe_trans _ _ _ hi1 hi2⟩

/-- The snapshot comparator is total. -/
theorem srcLe_total (a b : SrcDoc) : (srcLe a b || srcLe b a) = true := by
  unfold srcLe
  simp only [Bool.or_eq_true, Bool.and_eq_true, beq_iff_eq]
  cases hab : strLt a.title.data b.title.data with
  | true => exact Or.inl (Or.inl rfl)
  | false =>
    cases hba : strLt b.title.data a.title.data with
    | true => exact Or.inr (Or.inl rfl)
    | false =>
      have hteq : a.title = b.title := str_eq_of_data_eq (strLt_connex _ _ hab hba)
      rcases (by simpa using strLe_total a.id.data b.id.data : _ ∨ _) with h | h
      · exact Or.inl (Or.inr ⟨hteq, h⟩)
      · exact Or.inr (Or.inr ⟨hteq.symm, h⟩)

/-- Insertion produces a permutation of the cons. -/
theorem pyInsert_perm {a : Type} (le : a → a → Bool) (x : a) :
    ∀ l : List a, (pyInsert le x l).Perm (x :: l) := by
  intro l
  induction l with
  | nil => exact List.Perm.refl _
  | cons y ys ih =>
    unfold pyInsert
    split
    · exact List.Perm.refl _
    · exact (List.Perm.cons y ih).trans (List.Perm.swap x y ys)

/-- The stable sort is a permutation of its input. -/
theorem pySort_perm {a : Type} (le : a → a → Bool) :
    ∀ l : List a, (pySort le l).Perm l := by
  intro l
  induction l with
  | nil => exact List.Perm.refl _
  | cons x xs ih => exact (pyInsert_perm le x (pySort le xs)).trans (List.Perm.cons x ih)

/-- Membership through insertion. -/
theorem mem_pyInsert {a : Type} (le : a → a → Bool) (x z : a) (l : List a) :
    z ∈ pyInsert le x l ↔ z = x ∨ z ∈ l :=
  ((pyInsert_perm le x l).mem_iff).trans List.mem_cons

/-- Insertion into a sorted list keeps it sorted. -/
theorem pyInsert_pairwise {a : Type} (le : a → a → Bool)
    (trans : ∀ u v w, le u v = true → le v w = true → le u w = true)
    (total : ∀ u v, (le u v || le v u) = true) (x : a) :
    ∀ l, l.Pairwise (fun u v => le u v = true) →
      (pyInsert le x l).Pairwise (fun u v => le u v = true) := by
  intro l
  induction l with
  | nil => intro _; simp [pyInsert]
  | cons y ys ih =>
    intro hp
    obtain ⟨hy, hys⟩ := List.pairwise_cons.mp hp
    unfold pyInsert
    split
    case isTrue hxy =>
      refine List.pairwise_cons.mpr ⟨?_, hp⟩
      intro z hz
      rcases List.mem_cons.mp hz with rfl | hz2
      · exact hxy
      · exact trans x y z hxy (hy z hz2)
    case isFalse hxy =>
      refine List.pairwise_cons.mpr ⟨?_, ih hys⟩
      intro z hz
      rcases (mem_pyInsert le x z ys).mp hz with rfl | hz2
      · rcases (by simpa using total z y : le z y = true ∨ le y z = true) with h | h
        · exact absurd h hxy
        · exact h
      · exact hy z hz2

/-- The stable sort is sorted with respect to a transitive total
comparator. -/
theorem pySort_pairwise {a : Type} (le : a → a → Bool)
    (trans : ∀ u v w, le u v = true → le v w = true → le u w = true)
    (total : ∀ u v, (le u v || le v u) = true) :
    ∀ l : List a, (pySort le l).Pairwise (fun u v => le u v = true) := by
  intro l
  induction l with
  | nil => exact List.Pairwise.nil
  | cons x xs ih => exact pyInsert_pairwise le trans total x (pySort le xs) ih

/-- A list is a sublist of any insertion into it. -/
theorem sublist_pyInsert {a : Type} (le : a → a → Bool) (x : a) :
    ∀ l : List a, l.Sublist (pyInsert le x l) := by
  intro l
  induction l with
  | nil => simp [pyInsert]
  | cons y ys ih =>
    unfold pyInsert
    split
    · exact List.Sublist.cons x (List.Sublist.refl _)
    · exact List.Sublist.cons₂ y ih

/-- Insertion stability: x lands before every member it compares
less-or-equal to. -/
theorem pair_sublist_pyInsert {a : Type} (le : a → a → Bool) (x b : a)
    (hxb : le x b = true) :
    ∀ l : List a, b ∈ l → [x, b].Sublist (pyInsert le x l) := by
  intro l
  induction l with
  | nil => intro h; cases h
  | cons y ys ih =>
    intro hb
    unfold pyInsert
    split
    case isTrue h =>
      exact List.Sublist.cons₂ x (List.singleton_sublist.mpr hb)
    case isFalse h =>
      rcases List.mem_cons.mp hb with rfl | hb2
      · exact absurd hxb h
      · exact List.Sublist.cons y (ih hb2)

/-- Sort stability in pair form: an ordered pair that appears in order
in the input stays in order in the sorted output. -/
theorem pair_sublist_pySort {a : Type} (le : a → a → Bool) {x b : a}
    (hxb : le x b = true) :
    ∀ l : List a, [x, b].Sublist l → [x, b].Sublist (pySort le l) := by
  intro l
  induction l with
  | nil => intro h; simp at h
  | cons y ys ih =>
    intro h
    cases h with
    | cons₂ _ h2 =>
      have hbmem : b ∈ pySort le ys :=
        (pySort_perm le ys).mem_iff.mpr (List.singleton_sublist.mp h2)
      exact pair_sublist_pyInsert le x b hxb _ hbmem
    | cons _ h2 =>
      exact (ih h2).trans (sublist_pyInsert le y (pySort le ys))

/-- The judge comparator is transitive. -/
theorem candLe_trans (a b c : Candidate) (h1 : candLe a b = true) (h2 : candLe b c = true) :
    candLe a c = true := by
  simp only [candLe, decide_eq_true_eq] at h1 h2 ⊢
  exact le_trans h2 h1

/-- The judge comparator is total. -/
theorem candLe_total (a b : Candidate) : (candLe a b || candLe b a) = true := by
  simp only [candLe, Bool.or_eq_true, decide_eq_true_eq]
  exact le_total b.score a.score

/-- C6: the judge (stable descending in-place sort, head taken as the
winner) selects a candidate of maximal score, and among equal maximal
scores the earliest-generated one; on scores [0.5, 0.9, 0.9] the winner
is the earlier-generated of the two 0.9 candidates (index 1). -/
theorem judge_selects_max_earliest :
    (∀ cands : List Candidate, cands.Pairwise (fun a b => a.idx < b.idx) → cands ≠ [] →
      ∃ w, judgeWinner cands = some w ∧ w ∈ cands ∧
        (∀ c ∈ cands, c.score ≤ w.score) ∧
        (∀ c ∈ cands, c.score = w.score → w.idx ≤ c.idx)) ∧
    (judgeWinner candsTie).map Candidate.idx = some 1 := by
  constructor
  · intro cands hidx hne
    have hperm := pySort_perm candLe cands
    have hsort := pySort_pairwise candLe candLe_trans candLe_total cands
    cases hms : pySort candLe cands with
    | nil => exact absurd (List.nil_perm.mp (hms ▸ hperm)) hne
    | cons w t =>
      have hw : judgeWinner cands = some w := by simp [judgeWinner, judgeSort, hms]
      have hwin : w ∈ cands := (hms ▸ hperm).mem_iff.mp (List.mem_cons_self w t)
      refine ⟨w, hw, hwin, ?_, ?_⟩
      · intro c hc
        have hcms : c ∈ w :: t := (hms ▸ hperm).mem_iff.mpr hc
        rcases List.mem_cons.mp hcms with rfl | hct
        · exact le_refl _
        · have hp := (List.pairwise_cons.mp (hms ▸ hsort)).1 c hct
          simpa [candLe] using hp
      · intro c hc hsc
        by_contra hlt
        push_neg at hlt
        have hcw : c ≠ w := by
          intro h
          rw [h] at hlt
          exact lt_irrefl _ hlt
        obtain ⟨i, hil, hie⟩ := List.mem_iff_getElem.mp hc
        obtain ⟨j, hjl, hje⟩ := List.mem_iff_getElem.mp hwin
        have hij : i < j := by
          rcases Nat.lt_trichotomy i j with h | h | h
          · exact h
          · subst h
            exact absurd (hie.symm.trans hje) hcw
          · have := List.pairwise_iff_getElem.mp hidx j i hjl hil h
            rw [hie, hje] at this
            omega
        have hsub : [c, w].Sublist cands := by
          have hp : List.Pairwise (fun u v : Fin cands.length => u < v)
              [⟨i, hil⟩, ⟨j, hjl⟩] := by
            refine List.pairwise_cons.mpr ⟨?_, ?_⟩
            · intro u hu
              rw [List.mem_singleton.mp hu]
              exact hij
            · exact List.pairwise_singleton _ _
          have hx := List.map_getElem_sublist hp
          simpa [hie, hje] using hx
        have hle : candLe c w = true := by simp [candLe, hsc]
        have hpair := pair_sublist_pySort candLe hle cands hsub
        rw [hms] at hpair
        have hnd : cands.Nodup :=
          List.Pairwise.imp (fun hab heq => by rw [heq] at hab; exact lt_irrefl _ hab) hidx
        have hndms : (w :: t).Nodup := by
          have h0 := hperm.symm.nodup hnd
          rwa [hms] at h0
        have hwt : w ∉ t := (List.nodup_cons.mp hndms).1
        cases hpair with
        | cons _ h2 => exact hwt (h2.subset (by simp))
        | cons₂ _ h2 => exact hcw rfl
  · rfl

/-- Witness for the C6 universal part at the [0.5, 0.9, 0.9] committee. -/
theorem judge_selects_max_earliest_witness :
    ∃ w, judgeWinner candsTie = some w ∧ w ∈ candsTie ∧
      (∀ c ∈ candsTie, c.score ≤ w.score) ∧
      (∀ c ∈ candsTie, c.score = w.score → w.idx ≤ c.idx) :=
  judge_selects_max_earliest.1 candsTie
    (by simp [candsTie])
    (by simp [candsTie])

/-- C7: the retrieval snapshot of the empty source set is empty (never
an error); the snapshot holds min(topK, n) entries — the sorted list
truncated to topK; entries are ascending in the code-point order on the
(title, id) pair; and every entry is built from a source document,
carrying its id, title and the one-way digest of its body rather than
the body.  Determinism over repeated calls is purity of the embedded
function. -/
theorem snapshot_sorted_truncated (h : String → String) (docs : List SrcDoc) (topK : Nat) :
    deterministic_snapshot h [] topK = [] ∧
    (deterministic_snapshot h docs topK).length = min topK docs.length ∧
    (deterministic_snapshot h docs topK).Pairwise
      (fun e1 e2 => strLt e1.title.data e2.title.data = true ∨
        (e1.title = e2.title ∧ strLe e1.id.data e2.id.data = true)) ∧
    (∀ e ∈ deterministic_snapshot h docs topK,
      ∃ d ∈ docs, e = { id := d.id, title := d.title, hash := h d.body }) := by
  refine ⟨by simp [deterministic_snapshot, pySort], ?_, ?_, ?_⟩
  · unfold deterministic_snapshot
    rw [List.length_map, List.length_take, (pySort_perm srcLe docs).length_eq]
  · unfold deterministic_snapshot
    have hsort := pySort_pairwise srcLe srcLe_trans srcLe_total docs
    have htake := List.Pairwise.sublist (List.take_sublist topK (pySort srcLe docs)) hsort
    refine List.pairwise_map.mpr ?_
    refine List.Pairwise.imp ?_ htake
    intro d1 d2 hle
    simp only [srcLe, Bool.or_eq_true, Bool.and_eq_true, beq_iff_eq] at hle
    rcases hle with h1 | ⟨h1, h2⟩
    · exact Or.inl h1
    · exact Or.inr ⟨h1, h2⟩
  · intro e he
    unfold deterministic_snapshot at he
    obtain ⟨d, hd, rfl⟩ := List.mem_map.mp he
    exact ⟨d, (pySort_perm srcLe docs).mem_iff.mp ((List.take_sublist _ _).subset hd), rfl⟩

/-- Witness for C7 on a concrete three-document corpus with a title tie,
truncated to two entries. -/
theorem snapshot_sorted_truncated_witness :
    (deterministic_snapshot (fun s => "#" ++ s) docsEx 2).length = min 2 docsEx.length ∧
    ∃ d ∈ docsEx, ({ id := "i0", title := "A", hash := "#b0" } : SnapEntry) =
      { id := d.id, title := d.title, hash := "#" ++ d.body } := by
  constructor
  · exact (snapshot_sorted_truncated (fun s => "#" ++ s) docsEx 2).2.1
  · exact (snapshot_sorted_truncated (fun s => "#" ++ s) docsEx 2).2.2.2
      { id := "i0", title := "A", hash := "#b0" } (by decide)

/-- A successful render-validate step of one kind traces exactly that
kind and produces the add_art record, whose primary flag compares the
kind with the requested primary. -/
theorem renderKind_ok (env : Env) (runDir pk k0 : String) (ev : List String)
    (art : ArtifactMeta) (h : renderKind env runDir pk k0 = (ev, .ok art)) :
    ev = [k0] ∧ art.kind = k0 ∧ art.primary = (k0 == pk) := by
  unfold renderKind at h
  dsimp only at h
  split at h
  · rw [Prod.mk.injEq] at h
    obtain ⟨hev, hart⟩ := h
    have := Except.ok.inj hart
    exact ⟨hev.symm, by rw [← this], by rw [← this]⟩
  · rw [Prod.mk.injEq] at h
    exact absurd h.2 (fun hh => Except.noConfusion hh)

/-- A successful primary render traces the primary kind and marks its
artifact as primary. -/
theorem renderPrimary_ok (env : Env) (runDir primary : String) (ev : List String)
    (art : ArtifactMeta) (h : renderPrimary env runDir primary = (ev, .ok art)) :
    ev = [primary] ∧ art.kind = primary ∧ art.primary = true := by
  unfold renderPrimary at h
  split at h
  · have hx := renderKind_ok env runDir primary primary ev art h
    exact ⟨hx.1, hx.2.1, by rw [hx.2.2]; simp⟩
  · rw [Prod.mk.injEq] at h
    exact absurd h.2 (fun hh => Except.noConfusion hh)

/-- When the primary kind does not appear in the secondaries list, no
artifact produced by the secondaries loop carries the primary flag. -/
theorem renderSecondaries_not_primary (env : Env) (runDir pk : String) :
    ∀ seconds : List String, pk ∉ seconds →
      ∀ a ∈ (renderSecondaries env runDir pk seconds).2.1, a.primary = false := by
  intro seconds
  induction seconds with
  | nil =>
    intro _ a ha
    simp [renderSecondaries] at ha
  | cons s rest ih =>
    intro hpk a ha
    have hs : pk ≠ s := fun h => hpk (h ▸ List.mem_cons_self s rest)
    have hrest : pk ∉ rest := fun h => hpk (List.mem_cons_of_mem s h)
    unfold renderSecondaries at ha
    split at ha
    · split at ha
      next ev art heq =>
        rcases List.mem_cons.mp ha with rfl | ha2
        · have := (renderKind_ok env runDir pk s ev a heq).2.2
          rw [this]
          exact beq_eq_false_iff_ne.mpr (fun hh => hs hh.symm)
        · exact ih hrest a ha2
      next ev e heq =>
        simp at ha
    · exact ih hrest a ha

/-- Case analysis of a compile call: it either escapes with an
exception having persisted nothing; or returns the evidence-gated
INSUFFICIENT_CONTEXT response, with no manifest written, the primary
renderer already invoked, and the response carrying score, snapshot
and reason; or returns OK with exactly one manifest of status
"completed" whose artifact list starts with the primary artifact,
every secondary artifact being unflagged when the primary kind is not
repeated in the secondaries. -/
theorem compile_cases (env : Env) (body : PabiInput) :
    (∃ e, (compile env body).outcome = .error e ∧ (compile env body).manifests = []) ∨
    (∃ out restEv,
      (compile env body).outcome = .response out ∧
      out.status = "INSUFFICIENT_CONTEXT" ∧
      (compile env body).manifests = [] ∧
      (compile env body).rendered = body.artifact.primary :: restEv ∧
      ∃ score snap reason, out.proof =
        some { rubricScore := score, sources := snap, judgeNote := reason }) ∨
    (∃ out m part rest,
      (compile env body).outcome = .response out ∧
      out.status = "OK" ∧
      (compile env body).manifests = [m] ∧
      m.status = "completed" ∧
      m.artifacts = part :: rest ∧
      part.kind = body.artifact.primary ∧ part.primary = true ∧
      (body.artifact.primary ∉ body.artifact.secondaries.getD [] →
        ∀ a ∈ rest, a.primary = false)) := by
  generalize hres : compile env body = r
  unfold compile at hres
  dsimp only at hres
  split at hres
  · subst hres
    exact Or.inl ⟨_, rfl, rfl⟩
  · split at hres
    · subst hres
      exact Or.inl ⟨_, rfl, rfl⟩
    · split at hres
      · subst hres
        exact Or.inl ⟨_, rfl, rfl⟩
      · split at hres
        · subst hres
          exact Or.inl ⟨_, rfl, rfl⟩
        · split at hres
          · subst hres
            exact Or.inl ⟨_, rfl, rfl⟩
          · split at hres
            · subst hres
              exact Or.inl ⟨_, rfl, rfl⟩
            · split at hres
              · subst hres
                exact Or.inl ⟨_, rfl, rfl⟩
              · split at hres
                · subst hres
                  exact Or.inl ⟨_, rfl, rfl⟩
                · split at hres
                  · subst hres
                    exact Or.inl ⟨_, rfl, rfl⟩
                  · split at hres
                    · subst hres
                      rename_i xp ev part heqRP xs us heqS hff hpg
                      obtain ⟨hev, hkind, hprim⟩ := renderPrimary_ok _ _ _ _ _ heqRP
                      refine Or.inr (Or.inl ⟨_,
                        (renderSecondaries env (env.base ++ "/" ++ env.runId)
                          body.artifact.primary (body.artifact.secondaries.getD [])).1,
                        rfl, rfl, rfl, ?_, ⟨_, _, _, rfl⟩⟩)
                      rw [hev]
                      rfl
                    · subst hres
                      rename_i xp ev part heqRP xs us heqS hff hpg
                      obtain ⟨hev, hkind, hprim⟩ := renderPrimary_ok _ _ _ _ _ heqRP
                      refine Or.inr (Or.inr ⟨_, _, part,
                        (renderSecondaries env (env.base ++ "/" ++ env.runId)
                          body.artifact.primary (body.artifact.secondaries.getD [])).2.1,
                        rfl, rfl, rfl, rfl, rfl, hkind, hprim, ?_⟩)
                      intro hnot a ha
                      exact renderSecondaries_not_primary env _ body.artifact.primary _ hnot a ha

/-- C1 amended: a compile run that returns terminal status
INSUFFICIENT_CONTEXT has persisted no manifest and carries score,
snapshot and reason in its proof field — but rendering has already
been performed before the evidence gate is evaluated, so the rendered
trace is non-empty rather than empty. -/
theorem evidence_gate_short_circuit (env : Env) (body : PabiInput) (out : PabiOutput)
    (hout : (compile env body).outcome = .response out)
    (hstatus : out.status = "INSUFFICIENT_CONTEXT") :
    (compile env body).manifests = [] ∧
    (compile env body).rendered ≠ [] ∧
    ∃ score snap reason, out.proof =
      some { rubricScore := score, sources := snap, judgeNote := reason } := by
  rcases compile_cases env body with ⟨e, he, _⟩ |
    ⟨out2, restEv, ho, hs, hm, hr, hp⟩ | ⟨out2, m, part, rest, ho, hs, _⟩
  · rw [hout] at he
    exact absurd he (fun hh => COutcome.noConfusion hh)
  · rw [hout] at ho
    have heq : out = out2 := COutcome.response.inj ho
    subst heq
    exact ⟨hm, by rw [hr]; exact List.cons_ne_nil _ _, hp⟩
  · rw [hout] at ho
    have heq : out = out2 := COutcome.response.inj ho
    subst heq
    rw [hs] at hstatus
    exact absurd hstatus (by decide)

/-- C2 amended: a manifest record is persisted exactly once for a
compile call returning OK; a call ending in the evidence-gated
INSUFFICIENT_CONTEXT status persists no manifest at all. -/
theorem manifest_written_only_on_ok (env : Env) (body : PabiInput) (out : PabiOutput)
    (hout : (compile env body).outcome = .response out) :
    (out.status = "OK" → ∃ m, (compile env body).manifests = [m]) ∧
    (out.status = "INSUFFICIENT_CONTEXT" → (compile env body).manifests = []) := by
  rcases compile_cases env body with ⟨e, he, _⟩ |
    ⟨out2, restEv, ho, hs, hm, _, _⟩ | ⟨out2, m, part, rest, ho, hs, hm, _⟩
  · rw [hout] at he
    exact absurd he (fun hh => COutcome.noConfusion hh)
  · rw [hout] at ho
    have heq : out = out2 := COutcome.response.inj ho
    subst heq
    refine ⟨fun hok => ?_, fun _ => hm⟩
    rw [hok] at hs
    exact absurd hs (by decide)
  · rw [hout] at ho
    have heq : out = out2 := COutcome.response.inj ho
    subst heq
    refine ⟨fun _ => ⟨m, hm⟩, fun hins => ?_⟩
    rw [hins] at hs
    exact absurd hs (by decide)

/-- C5 amended: every manifest persisted by the pipeline has the
status field "completed" — not a member of the four-valued enum; the
four-valued status appears on the response, which is always OK or
INSUFFICIENT_CONTEXT. -/
theorem manifest_status_completed (env : Env) (body : PabiInput) :
    (∀ m ∈ (compile env body).manifests, m.status = "completed") ∧
    (∀ out, (compile env body).outcome = .response out →
      out.status = "OK" ∨ out.status = "INSUFFICIENT_CONTEXT") := by
  rcases compile_cases env body with ⟨e, he, hm⟩ |
    ⟨out2, restEv, ho, hs, hm, _, _⟩ | ⟨out2, m, part, rest, ho, hs, hm, hstat, _⟩
  · refine ⟨fun m0 hmem => ?_, fun out hout => ?_⟩
    · rw [hm] at hmem
      simp at hmem
    · rw [hout] at he
      exact absurd he (fun hh => COutcome.noConfusion hh)
  · refine ⟨fun m0 hmem => ?_, fun out hout => ?_⟩
    · rw [hm] at hmem
      simp at hmem
    · rw [hout] at ho
      have heq : out = out2 := COutcome.response.inj ho
      subst heq
      exact Or.inr hs
  · refine ⟨fun m0 hmem => ?_, fun out hout => ?_⟩
    · rw [hm] at hmem
      rw [List.mem_singleton.mp hmem]
      exact hstat
    · rw [hout] at ho
      have heq : out = out2 := COutcome.response.inj ho
      subst heq
      exact Or.inl hs

/-- C8 amended: for a run that persisted a manifest (an OK run), when
the requested primary kind is not repeated in the secondaries list,
exactly one artifact carries isPrimary=true and its kind is the
requested primary kind; a primary kind repeated in the secondaries
produces a second primary-flagged artifact (see the counterexample). -/
theorem primary_artifact_unique (env : Env) (body : PabiInput) (m : RunManifest)
    (hm : (compile env body).manifests = [m])
    (hnot : body.artifact.primary ∉ body.artifact.secondaries.getD []) :
    (m.artifacts.filter (fun a => a.primary)).map (fun a => a.kind) =
      [body.artifact.primary] := by
  rcases compile_cases env body with ⟨e, he, hm0⟩ |
    ⟨out2, restEv, ho, hs, hm0, _, _⟩ |
    ⟨out2, m2, part, rest, ho, hs, hm0, hstat, harts, hkind, hprim, hflags⟩
  · exact absurd (hm.symm.trans hm0) (fun hh => List.noConfusion hh)
  · exact absurd (hm.symm.trans hm0) (fun hh => List.noConfusion hh)
  · have hmm : m = m2 := (List.cons.inj (hm.symm.trans hm0)).1
    subst hmm
    rw [harts, List.filter_cons]
    rw [hprim]
    simp only [if_pos rfl]
    rw [List.filter_eq_nil_iff.mpr (fun a ha => by rw [hflags hnot a ha]; simp)]
    simp [hkind]

/-- C1 counterexample: a proof-mode run whose evidence gate fails has
still invoked the html renderer — the pipeline does not stop before
rendering. -/
theorem evidence_gate_renders_before_gate_cex :
    (∃ out, (compile envAllOk bodyProofHtml).outcome = .response out ∧
      out.status = "INSUFFICIENT_CONTEXT") ∧
    (compile envAllOk bodyProofHtml).rendered = ["html"] :=
  ⟨⟨_, rfl, rfl⟩, rfl⟩

/-- Witness for the C1 amended theorem on a concrete gated proof-mode
run. -/
theorem evidence_gate_short_circuit_witness :
    ∃ out, (compile envAllOk bodyProofHtml).outcome = .response out ∧
      ((compile envAllOk bodyProofHtml).manifests = [] ∧
       (compile envAllOk bodyProofHtml).rendered ≠ [] ∧
       ∃ score snap reason, out.proof =
         some { rubricScore := score, sources := snap, judgeNote := reason }) :=
  ⟨_, rfl, evidence_gate_short_circuit envAllOk bodyProofHtml _ rfl rfl⟩

/-- C2 counterexample: a run ending in INSUFFICIENT_CONTEXT has no
manifest written, contradicting the claim that every terminal outcome
persists one. -/
theorem manifest_skipped_on_gated_cex :
    (∃ out, (compile envAllOk bodyProofHtml).outcome = .response out ∧
      out.status = "INSUFFICIENT_CONTEXT") ∧
    (compile envAllOk bodyProofHtml).manifests = [] :=
  ⟨⟨_, rfl, rfl⟩, rfl⟩

/-- Witness for the C2 amended theorem on a concrete OK turbo run. -/
theorem manifest_written_only_on_ok_witness :
    ∃ out, (compile envAllOk bodyTurboHtml).outcome = .response out ∧
      ((out.status = "OK" → ∃ m, (compile envAllOk bodyTurboHtml).manifests = [m]) ∧
       (out.status = "INSUFFICIENT_CONTEXT" →
         (compile envAllOk bodyTurboHtml).manifests = [])) :=
  ⟨_, rfl, manifest_written_only_on_ok envAllOk bodyTurboHtml _ rfl⟩

/-- C5 counterexample: the persisted manifest of an OK run has status
"completed", which is none of the four enum values. -/
theorem manifest_status_not_enum_cex :
    (compile envAllOk bodyTurboHtml).manifests.map RunManifest.status = ["completed"] ∧
    ("completed" ≠ "OK" ∧ "completed" ≠ "INSUFFICIENT_CONTEXT" ∧
     "completed" ≠ "POLICY_BLOCK" ∧ "completed" ≠ "TOOL_ERROR") :=
  ⟨rfl, by decide⟩

/-- Witness for the C5 amended theorem on a concrete OK turbo run. -/
theorem manifest_status_completed_witness :
    (∃ out, (compile envAllOk bodyTurboHtml).outcome = .response out ∧
      (out.status = "OK" ∨ out.status = "INSUFFICIENT_CONTEXT")) ∧
    ∃ m ∈ (compile envAllOk bodyTurboHtml).manifests, m.status = "completed" := by
  have h := manifest_status_completed envAllOk bodyTurboHtml
  exact ⟨⟨_, rfl, h.2 _ rfl⟩, ⟨_, List.mem_singleton.mpr rfl, h.1 _ (List.mem_singleton.mpr rfl)⟩⟩

/-- C8 counterexample: requesting primary pdf with pdf repeated in the
secondaries yields an OK manifest with two primary-flagged artifacts. -/
theorem primary_artifact_dup_cex :
    (∃ out, (compile envAllOk bodyTurboPdfPdf).outcome = .response out ∧
      out.status = "OK") ∧
    (compile envAllOk bodyTurboPdfPdf).manifests.map
      (fun m => (m.artifacts.filter (fun a => a.primary)).length) = [2] :=
  ⟨⟨_, rfl, rfl⟩, rfl⟩

/-- Witness for the C8 amended theorem on a concrete OK html run. -/
theorem primary_artifact_unique_witness :
    ∃ m, (compile envAllOk bodyTurboHtml).manifests = [m] ∧
      (m.artifacts.filter (fun a => a.primary)).map (fun a => a.kind) = ["html"] :=
  ⟨_, rfl, primary_artifact_unique envAllOk bodyTurboHtml _ rfl (by decide)⟩

end UPE
